import Mathlib

/-!
Shallow embedding of the GeoFull address-enrichment pipeline.

Source files embedded here:
  * `src/app/models.py`   — the `AddressStatus` enum and the `Address` entity;
  * `src/app/schemas.py`  — `AddressUpdate` (partial update payload; pydantic
    `model_dump(exclude_unset=True)` semantics: a field explicitly passed,
    even as `None`, is applied; an unset field is left alone);
  * `src/app/crud.py`     — `get_address` / `update_address` over the record store;
  * `src/app/processing.py` — `parse_address_with_ai`, `geocode_address`,
    `run_processing_pipeline`.

External services (the Gemini extraction call, Python's `json.loads`, the
Nominatim HTTP call) are modelled as oracle inputs to the functions that
call them: each pipeline run consumes one extraction outcome, one JSON-parse
oracle and one geocoder response.  Python strings are Lean `String`s;
Python `None` is `Option.none`; Python floats produced by `float(...)` are
modelled as rationals (the claims only concern their presence, never
floating-point arithmetic).  Machine-level evaluation order and exceptions
are made explicit: an exception escaping the pipeline is recorded in the
run result rather than modelled as divergence.
-/

namespace GeoFull

/-- Python `str.strip()` on the character list: drop whitespace from both ends. -/
def pyStripList (cs : List Char) : List Char :=
  (((cs.dropWhile Char.isWhitespace).reverse).dropWhile Char.isWhitespace).reverse

/-- Python `s.strip()`. -/
def pyStrip (s : String) : String :=
  ⟨pyStripList s.data⟩

/-- Python `s.replace(pat, rep)` on character lists: replace every
non-overlapping occurrence of `pat`, scanning left to right.  The source only
calls it with the non-empty patterns of the code-fence markers, so the empty
pattern is treated as matching nothing.  The scan is written with an explicit
fuel bounded by the list length so that it is structurally recursive; each
step consumes at least one character, so the fuel never runs out. -/
def pyReplaceFuel (pat rep : List Char) : Nat → List Char → List Char
  | _, [] => []
  | 0, l => l
  | fuel + 1, c :: cs =>
    if pat.isPrefixOf (c :: cs) && !pat.isEmpty then
      rep ++ pyReplaceFuel pat rep fuel ((c :: cs).drop pat.length)
    else
      c :: pyReplaceFuel pat rep fuel cs

/-- Python `s.replace(pat, rep)` on character lists, fuel instantiated. -/
def pyReplaceList (pat rep l : List Char) : List Char :=
  pyReplaceFuel pat rep l.length l

/-- Python `s.replace(pat, rep)`. -/
def pyReplace (s pat rep : String) : String :=
  ⟨pyReplaceList pat.data rep.data s.data⟩

/-- Python `sep.join(l)`. -/
def pyJoin (sep : String) : List String → String
  | [] => ""
  | [x] => x
  | x :: y :: xs => x ++ sep ++ pyJoin sep (y :: xs)

/-- The `AddressStatus` enum of `src/app/models.py`. -/
inductive AddressStatus where
  | PENDING
  | NORMALIZED
  | VERIFIED
deriving DecidableEq, Repr

/-- Numeric rank of a status along the lifecycle PENDING → NORMALIZED → VERIFIED. -/
def AddressStatus.rank : AddressStatus → Nat
  | .PENDING => 0
  | .NORMALIZED => 1
  | .VERIFIED => 2

/-- The `Address` entity of `src/app/models.py` (the columns the pipeline
reads or writes; `id` is the store key, kept outside the record). -/
structure Address where
  original_address : String
  normalized_address : Option String
  suggested_address : Option String
  street_info : Option String
  neighborhood : Option String
  apartment_info : Option String
  notes : Option String
  latitude : Option ℚ
  longitude : Option ℚ
  postal_code : Option String
  status : AddressStatus
deriving DecidableEq, Repr

/-- The `AddressUpdate` schema of `src/app/schemas.py` under
`model_dump(exclude_unset=True)`: the outer `Option` records whether the field
was passed at all; for nullable columns the inner `Option` is the value written
(`some none` = explicitly set to SQL NULL). -/
structure AddressUpdate where
  original_address : Option String := none
  normalized_address : Option (Option String) := none
  suggested_address : Option (Option String) := none
  street_info : Option (Option String) := none
  neighborhood : Option (Option String) := none
  apartment_info : Option (Option String) := none
  notes : Option (Option String) := none
  latitude : Option (Option ℚ) := none
  longitude : Option (Option ℚ) := none
  postal_code : Option (Option String) := none
  status : Option AddressStatus := none
deriving DecidableEq, Repr

/-- The `setattr` loop of `crud.update_address`: every field present in the
dump overwrites the record's field, every absent field is untouched. -/
def applyUpdate (a : Address) (u : AddressUpdate) : Address :=
  { original_address := u.original_address.getD a.original_address
    normalized_address := u.normalized_address.getD a.normalized_address
    suggested_address := u.suggested_address.getD a.suggested_address
    street_info := u.street_info.getD a.street_info
    neighborhood := u.neighborhood.getD a.neighborhood
    apartment_info := u.apartment_info.getD a.apartment_info
    notes := u.notes.getD a.notes
    latitude := u.latitude.getD a.latitude
    longitude := u.longitude.getD a.longitude
    postal_code := u.postal_code.getD a.postal_code
    status := u.status.getD a.status }

/-- The record store: an association list from address id (uuid, modelled as a
natural) to the record, primary-key unique in the database. -/
abbrev Store := List (Nat × Address)

/-- Embeds `crud.get_address`: first record whose id matches, `None` if absent. -/
def get_address (db : Store) (id : Nat) : Option Address :=
  (List.find? (fun e => e.1 == id) db).map (fun e => e.2)

/-- Embeds `crud.update_address`: look the record up; if absent the store is
unchanged (the function returns `None`), otherwise the dumped fields are
written onto the record and committed. -/
def update_address (db : Store) (id : Nat) (u : AddressUpdate) : Store :=
  match get_address db id with
  | none => db
  | some _ =>
    List.map (fun e => if e.1 == id then (e.1, applyUpdate e.2 u) else e) db

/-- A JSON scalar appearing as a field value of the extraction response:
the extraction contract makes every field string-or-null, and these are the
only value shapes the claims concern. -/
inductive JVal where
  | null
  | str (s : String)
deriving DecidableEq, Repr

/-- A JSON document returned by `json.loads` on the cleaned extraction
response: either an object (field list, keys unique as in a JSON object) or a
non-object value such as an array, on which the pipeline's `.get` calls raise. -/
inductive JsonVal where
  | obj (fields : List (String × JVal))
  | arr (elems : List JVal)
deriving DecidableEq, Repr

/-- Python truthiness of the parsed document (`if parsed_data:`): a dict or
list is truthy exactly when non-empty. -/
def JsonVal.truthy : JsonVal → Bool
  | .obj fs => !fs.isEmpty
  | .arr es => !es.isEmpty

/-- Python `parsed_data.get(k)` on an object: `None` both when the key is
absent and when its value is JSON null. -/
def dictGet (fs : List (String × JVal)) (k : String) : Option String :=
  match List.find? (fun e => e.1 == k) fs with
  | none => none
  | some (_, .null) => none
  | some (_, .str s) => some s

/-- The response cleaning of `parse_address_with_ai`:
`response.text.strip().replace("```json", "").replace("```", "").strip()`. -/
def clean_response (t : String) : String :=
  pyStrip (pyReplace (pyReplace (pyStrip t) "```json" "") "```" "")

/-- Outcome of the external extraction call as observed by
`parse_address_with_ai`: the model lookup found no model, the generation call
raised, or it returned a raw text response. -/
inductive AiOutcome where
  | unavailable
  | raised
  | response (text : String)
deriving DecidableEq, Repr

/-- Embeds `processing.parse_address_with_ai`: unavailability returns `None`; any
exception inside the `try` block (generation failure or `json.loads` failure)
is caught and returns `None`; otherwise the cleaned response is parsed and the
parsed document returned as is, with no validation of its shape.  `loads` is
the `json.loads` oracle: `Except.error` means it raised `JSONDecodeError`. -/
def parse_address_with_ai (address : String) (ai : AiOutcome)
    (loads : String → Except Unit JsonVal) : Option JsonVal :=
  match ai with
  | .unavailable => none
  | .raised => none
  | .response t =>
    match loads (clean_response t) with
    | .error _ => none
    | .ok v => some v

/-- One Nominatim match object as read by `geocode_address`: for `lat` and
`lon` the outer `Option` is key presence and the inner `Option` is whether
`float(...)` succeeds on the value (`some q` = converts to `q`); `postcode`
folds `result.get("address", {}).get("postcode")`. -/
structure NomItem where
  lat : Option (Option ℚ)
  lon : Option (Option ℚ)
  display_name : Option String
  postcode : Option String
deriving DecidableEq, Repr

/-- Outcome of the Nominatim HTTP call as observed inside `geocode_address`'s
`try` block.  `timeoutErr`, `transportErr`, `httpErr` (from
`raise_for_status`) and `badJson` (from `response.json()`) are all
`requests.exceptions.RequestException` subclasses, hence caught. -/
inductive GeoResponse where
  | timeoutErr
  | transportErr
  | httpErr
  | badJson
  | results (items : List NomItem)
deriving DecidableEq, Repr

/-- The dict built by `geocode_address` on success: `latitude` and `longitude`
come out of `float(...)`, hence are always present; the other two may be null. -/
structure GeoResult where
  latitude : ℚ
  longitude : ℚ
  suggested_address : Option String
  postal_code : Option String
deriving DecidableEq, Repr

/-- An exception raised by Python `float(x)`: `TypeError` on `None` (missing
key), `ValueError` on a value that does not convert. -/
inductive PyFloatErr where
  | typeError
  | valueError
deriving DecidableEq, Repr

deriving instance DecidableEq for Except

/-- Python `float(result.get(k))` over the modelled value. -/
def pyFloat : Option (Option ℚ) → Except PyFloatErr ℚ
  | none => .error .typeError
  | some none => .error .valueError
  | some (some q) => .ok q

/-- Embeds `processing.geocode_address`: empty/None query returns `None` at once;
every `RequestException` (transport, timeout, HTTP error status, undecodable
body) is caught and returns `None`; an empty result array returns `None`;
otherwise the first match is read, where `float(...)` on a missing or
non-numeric `lat`/`lon` raises an exception that nothing in the function
catches (`.error`). -/
def geocode_address (address : Option String) (resp : GeoResponse) :
    Except PyFloatErr (Option GeoResult) :=
  match address with
  | none => .ok none
  | some a =>
    if a = "" then .ok none
    else
      match resp with
      | .timeoutErr => .ok none
      | .transportErr => .ok none
      | .httpErr => .ok none
      | .badJson => .ok none
      | .results [] => .ok none
      | .results (r :: _) =>
        match pyFloat r.lat with
        | .error e => .error e
        | .ok la =>
          match pyFloat r.lon with
          | .error e => .error e
          | .ok lo =>
            .ok (some { latitude := la, longitude := lo,
                        suggested_address := r.display_name,
                        postal_code := r.postcode })

/-- Python `filter(None, parts)` on the list of optional strings
`norm_parts`: keeps exactly the truthy elements, so a present-but-empty
string is dropped just like `None`. -/
def pyFilterTruthy (l : List (Option String)) : List String :=
  l.filterMap (fun o =>
    match o with
    | none => none
    | some s => if s = "" then none else some s)

/-- The `norm_parts` list of `run_processing_pipeline`:
`[street_info, neighborhood, "Medellin", "Colombia"]`. -/
def norm_parts (si nb : Option String) : List (Option String) :=
  [si, nb, some "Medellin", some "Colombia"]

/-- The `normalized_str` of `run_processing_pipeline`:
`", ".join(filter(None, norm_parts))`. -/
def normalized_str (si nb : Option String) : String :=
  pyJoin ", " (pyFilterTruthy (norm_parts si nb))

/-- The external calls a pipeline run makes, in the order it makes them:
the extraction-service call, the commit of the extraction-success update, the
geocoder call, the commit of the geocoding-success update. -/
inductive Event where
  | extractCall
  | extractCommit
  | geocodeCall
  | geocodeCommit
deriving DecidableEq, Repr

/-- An exception escaping `run_processing_pipeline` (it propagates through the
`finally` block; no caller observes it): the `AttributeError` from calling
`.get` on a truthy non-dict parse result, or a `float(...)` error escaping
`geocode_address`. -/
inductive RunError where
  | attributeError
  | geo (e : PyFloatErr)
deriving DecidableEq, Repr

/-- Result of one pipeline run: the store after the run, the trace of external
calls and commits in order, and the exception that escaped the run, if any. -/
structure PipeResult where
  db : Store
  trace : List Event
  exn : Option RunError
deriving DecidableEq, Repr

/-- The extraction-success update of `run_processing_pipeline`: the four
structured fields (absent keys read as null by `.get`), the normalized
address, and status NORMALIZED — exactly the fields passed to
`AddressUpdate`; `latitude`/`longitude` are not among them. -/
def extract_update (fs : List (String × JVal)) : AddressUpdate :=
  { street_info := some (dictGet fs "street_info")
    neighborhood := some (dictGet fs "neighborhood")
    apartment_info := some (dictGet fs "apartment_info")
    notes := some (dictGet fs "notes")
    normalized_address := some (some (normalized_str (dictGet fs "street_info")
      (dictGet fs "neighborhood")))
    status := some AddressStatus.NORMALIZED }

/-- The geocoding-success update of `run_processing_pipeline`: coordinates,
suggested address, postal code and status VERIFIED, all in one update. -/
def geo_update (g : GeoResult) : AddressUpdate :=
  { latitude := some (some g.latitude)
    longitude := some (some g.longitude)
    suggested_address := some g.suggested_address
    postal_code := some g.postal_code
    status := some AddressStatus.VERIFIED }

/-- The geocoding phase of the run: called with the store as committed by the
extraction update and the refreshed record's `normalized_address`.  A
`float(...)` exception escapes the run; `GeocodeFailure` (`ok none`) changes
nothing further; success commits the geocoding update. -/
def geo_phase (db1 : Store) (id : Nat) (q : Option String) (geo : GeoResponse) :
    PipeResult :=
  match geocode_address q geo with
  | .error e =>
    { db := db1
      trace := [Event.extractCall, Event.extractCommit, Event.geocodeCall]
      exn := some (RunError.geo e) }
  | .ok none =>
    { db := db1
      trace := [Event.extractCall, Event.extractCommit, Event.geocodeCall]
      exn := none }
  | .ok (some g) =>
    { db := update_address db1 id (geo_update g)
      trace := [Event.extractCall, Event.extractCommit, Event.geocodeCall,
                Event.geocodeCommit]
      exn := none }

/-- The body of `run_processing_pipeline` after the record was fetched, on the
already-computed parse result.  `if parsed_data:` takes the failure branch on
`None` and on any falsy document (empty dict, empty list); a truthy non-dict
raises `AttributeError` at the first `.get`, before any store write; a truthy
dict is committed as the extraction update, the record is refreshed, and the
geocoding phase runs on its `normalized_address`. -/
def run_found (db : Store) (id : Nat) (a : Address) (parsed : Option JsonVal)
    (geo : GeoResponse) : PipeResult :=
  match parsed with
  | none => { db := db, trace := [Event.extractCall], exn := none }
  | some v =>
    if v.truthy then
      match v with
      | .arr _ =>
        { db := db, trace := [Event.extractCall],
          exn := some RunError.attributeError }
      | .obj fs =>
        let db1 := update_address db id (extract_update fs)
        let refreshed := (get_address db1 id).getD a
        geo_phase db1 id refreshed.normalized_address geo
    else
      { db := db, trace := [Event.extractCall], exn := none }

/-- Embeds `processing.run_processing_pipeline`: fetch the record (silent return when
absent, nothing called), run extraction, and on a truthy parse commit the
extraction update and continue with geocoding.  `ai`, `loads` and `geo` are
the oracles for the run's single extraction call, `json.loads` behaviour and
geocoder response. -/
def run_processing_pipeline (db : Store) (address_id : Nat) (ai : AiOutcome)
    (loads : String → Except Unit JsonVal) (geo : GeoResponse) : PipeResult :=
  match get_address db address_id with
  | none => { db := db, trace := [], exn := none }
  | some db_address =>
    run_found db address_id db_address
      (parse_address_with_ai db_address.original_address ai loads) geo

/-- Stated from the spec's words, for comparison with the source's
`normalized_str`: the comma-separated join of exactly the non-null elements of
`norm_parts`, skipping nulls and nothing else. -/
def normalized_spec (si nb : Option String) : String :=
  pyJoin ", " ((norm_parts si nb).filterMap id)

/-- The coordinate invariant of the data model: a VERIFIED record has both
coordinates, and the two coordinates are set together or not at all. -/
def coord_ok (a : Address) : Prop :=
  (a.status = AddressStatus.VERIFIED →
    a.latitude ≠ none ∧ a.longitude ≠ none) ∧
  (a.latitude = none ↔ a.longitude = none)

/-- A freshly created record: only `original_address` set, status PENDING. -/
def cex_pending : Address :=
  { original_address := "Cra72a#113-21 2do piso"
    normalized_address := none
    suggested_address := none
    street_info := none
    neighborhood := none
    apartment_info := none
    notes := none
    latitude := none
    longitude := none
    postal_code := none
    status := AddressStatus.PENDING }

/-- A fully verified record: coordinates set, status VERIFIED. -/
def cex_verified : Address :=
  { original_address := "Cra72a#113-21 2do piso"
    normalized_address := some "Carrera 72a # 113-21, Medellin, Colombia"
    suggested_address := some "Carrera 72a, Medellin, Antioquia, Colombia"
    street_info := some "Carrera 72a # 113-21"
    neighborhood := none
    apartment_info := some "2do piso"
    notes := none
    latitude := some 6
    longitude := some (-75)
    postal_code := some "050001"
    status := AddressStatus.VERIFIED }

/-- A `json.loads` oracle standing for a service response that parses to a
well-formed four-field object. -/
def oracle_obj : String → Except Unit JsonVal :=
  fun _ => Except.ok (JsonVal.obj
    [("street_info", JVal.str "Carrera 72a # 113-21"),
     ("neighborhood", JVal.null),
     ("apartment_info", JVal.str "2do piso"),
     ("notes", JVal.null)])

/-- A `json.loads` oracle standing for a response whose `street_info` parses
to the empty string. -/
def oracle_empty_street : String → Except Unit JsonVal :=
  fun _ => Except.ok (JsonVal.obj [("street_info", JVal.str "")])

/-- A `json.loads` oracle for the concrete document `[1]`: `json.loads "[1]"`
succeeds and yields a non-empty array, anything else is a decode error. -/
def oracle_json_list : String → Except Unit JsonVal :=
  fun s => if s = "[1]" then Except.ok (JsonVal.arr [JVal.str "1"]) else Except.error ()

/-- A Nominatim response with one complete match. -/
def geo_ok : GeoResponse :=
  GeoResponse.results
    [{ lat := some (some 6), lon := some (some (-75)),
       display_name := some "Carrera 72a, Medellin, Antioquia, Colombia",
       postcode := some "050001" }]

/-! Helper lemmas about the record store. -/

theorem get_address_cons (k : Nat) (a : Address) (t : Store) (id : Nat) :
    get_address ((k, a) :: t) id
      = if (k == id) = true then some a else get_address t id := by
  unfold get_address
  rw [List.find?_cons]
  by_cases hk : (k == id) = true
  · simp [hk]
  · simp [hk]

theorem get_map_update (db : Store) (id : Nat) (u : AddressUpdate) :
    get_address
      (List.map (fun e => if e.1 == id then (e.1, applyUpdate e.2 u) else e) db) id
    = (get_address db id).map (fun a => applyUpdate a u) := by
  induction db with
  | nil => rfl
  | cons e t ih =>
    obtain ⟨k, a⟩ := e
    show get_address
        ((if (k == id) = true then (k, applyUpdate a u) else (k, a)) ::
          List.map (fun e => if e.1 == id then (e.1, applyUpdate e.2 u) else e) t) id
      = (get_address ((k, a) :: t) id).map (fun a => applyUpdate a u)
    by_cases hk : (k == id) = true
    · rw [if_pos hk, get_address_cons, get_address_cons, if_pos hk, if_pos hk]
      rfl
    · rw [if_neg hk, get_address_cons, get_address_cons, if_neg hk, if_neg hk]
      exact ih

theorem get_update (db : Store) (id : Nat) (u : AddressUpdate) :
    get_address (update_address db id u) id
    = (get_address db id).map (fun a => applyUpdate a u) := by
  unfold update_address
  cases h : get_address db id with
  | none => simp [h]
  | some a => rw [get_map_update, h]

theorem mem_update (db : Store) (id : Nat) (u : AddressUpdate) (k : Nat)
    (a' : Address) (h : (k, a') ∈ update_address db id u) :
    (k, a') ∈ db ∨ ∃ a, (k, a) ∈ db ∧ a' = applyUpdate a u := by
  unfold update_address at h
  cases hg : get_address db id with
  | none => rw [hg] at h; exact Or.inl h
  | some b =>
    rw [hg] at h
    obtain ⟨⟨k2, a2⟩, hmem, heq⟩ := List.mem_map.mp h
    by_cases hk : (k2 == id) = true
    · rw [if_pos hk] at heq
      have hk2 : k2 = k := congrArg Prod.fst heq
      have ha : applyUpdate a2 u = a' := congrArg Prod.snd heq
      exact Or.inr ⟨a2, hk2 ▸ hmem, ha.symm⟩
    · rw [if_neg hk] at heq
      exact Or.inl (heq ▸ hmem)

/-! Helper lemmas about the two concrete updates. -/

theorem extract_status (a : Address) (fs : List (String × JVal)) :
    (applyUpdate a (extract_update fs)).status = AddressStatus.NORMALIZED := rfl

theorem extract_lat (a : Address) (fs : List (String × JVal)) :
    (applyUpdate a (extract_update fs)).latitude = a.latitude := rfl

theorem extract_lon (a : Address) (fs : List (String × JVal)) :
    (applyUpdate a (extract_update fs)).longitude = a.longitude := rfl

theorem extract_norm (a : Address) (fs : List (String × JVal)) :
    (applyUpdate a (extract_update fs)).normalized_address
      = some (normalized_str (dictGet fs "street_info") (dictGet fs "neighborhood")) := rfl

theorem geo_status (a : Address) (g : GeoResult) :
    (applyUpdate a (geo_update g)).status = AddressStatus.VERIFIED := rfl

theorem geo_lat (a : Address) (g : GeoResult) :
    (applyUpdate a (geo_update g)).latitude = some g.latitude := rfl

theorem geo_lon (a : Address) (g : GeoResult) :
    (applyUpdate a (geo_update g)).longitude = some g.longitude := rfl

theorem geo_norm (a : Address) (g : GeoResult) :
    (applyUpdate a (geo_update g)).normalized_address = a.normalized_address := rfl

theorem applyUpdate_extract_fields (a : Address) (fs : List (String × JVal)) :
    (applyUpdate a (extract_update fs)).status = AddressStatus.NORMALIZED ∧
    (applyUpdate a (extract_update fs)).street_info = dictGet fs "street_info" ∧
    (applyUpdate a (extract_update fs)).neighborhood = dictGet fs "neighborhood" ∧
    (applyUpdate a (extract_update fs)).apartment_info = dictGet fs "apartment_info" ∧
    (applyUpdate a (extract_update fs)).notes = dictGet fs "notes" ∧
    (applyUpdate a (extract_update fs)).normalized_address
      = some (normalized_str (dictGet fs "street_info") (dictGet fs "neighborhood")) ∧
    (applyUpdate a (extract_update fs)).latitude = a.latitude ∧
    (applyUpdate a (extract_update fs)).longitude = a.longitude ∧
    (applyUpdate a (extract_update fs)).suggested_address = a.suggested_address ∧
    (applyUpdate a (extract_update fs)).postal_code = a.postal_code ∧
    (applyUpdate a (extract_update fs)).original_address = a.original_address :=
  ⟨rfl, rfl, rfl, rfl, rfl, rfl, rfl, rfl, rfl, rfl, rfl⟩

theorem applyUpdate_geo_fields (a : Address) (g : GeoResult) :
    (applyUpdate a (geo_update g)).status = AddressStatus.VERIFIED ∧
    (applyUpdate a (geo_update g)).latitude = some g.latitude ∧
    (applyUpdate a (geo_update g)).longitude = some g.longitude ∧
    (applyUpdate a (geo_update g)).suggested_address = g.suggested_address ∧
    (applyUpdate a (geo_update g)).postal_code = g.postal_code ∧
    (applyUpdate a (geo_update g)).normalized_address = a.normalized_address ∧
    (applyUpdate a (geo_update g)).street_info = a.street_info :=
  ⟨rfl, rfl, rfl, rfl, rfl, rfl, rfl⟩

theorem rank_le_two (s : AddressStatus) : s.rank ≤ 2 := by
  cases s <;> simp [AddressStatus.rank]

/-! Helper lemmas unfolding the pipeline's branches. -/

theorem run_pipeline_found (db : Store) (id : Nat) (ai : AiOutcome)
    (loads : String → Except Unit JsonVal) (geo : GeoResponse) (a0 : Address)
    (h0 : get_address db id = some a0) :
    run_processing_pipeline db id ai loads geo
      = run_found db id a0 (parse_address_with_ai a0.original_address ai loads) geo := by
  unfold run_processing_pipeline
  rw [h0]

theorem run_found_none (db : Store) (id : Nat) (a : Address) (geo : GeoResponse) :
    run_found db id a none geo = ⟨db, [Event.extractCall], none⟩ := rfl

theorem run_found_falsy (db : Store) (id : Nat) (a : Address) (v : JsonVal)
    (geo : GeoResponse) (h : v.truthy = false) :
    run_found db id a (some v) geo = ⟨db, [Event.extractCall], none⟩ := by
  cases v with
  | obj fs =>
    have hfs : fs = [] := by
      simpa [JsonVal.truthy] using h
    subst hfs
    rfl
  | arr es =>
    have hes : es = [] := by
      simpa [JsonVal.truthy] using h
    subst hes
    rfl

theorem run_found_arr (db : Store) (id : Nat) (a : Address) (es : List JVal)
    (geo : GeoResponse) (h : es ≠ []) :
    run_found db id a (some (JsonVal.arr es)) geo
      = ⟨db, [Event.extractCall], some RunError.attributeError⟩ := by
  cases es with
  | nil => exact absurd rfl h
  | cons e es2 => rfl

theorem run_found_obj (db : Store) (id : Nat) (a : Address)
    (fs : List (String × JVal)) (geo : GeoResponse)
    (h : (JsonVal.obj fs).truthy = true) :
    run_found db id a (some (JsonVal.obj fs)) geo
      = geo_phase (update_address db id (extract_update fs)) id
          (((get_address (update_address db id (extract_update fs)) id).getD
            a).normalized_address) geo := by
  cases fs with
  | nil => simp [JsonVal.truthy] at h
  | cons f fs2 => rfl

theorem refreshed_normalized (db : Store) (id : Nat) (a0 : Address)
    (fs : List (String × JVal)) (h0 : get_address db id = some a0) :
    ((get_address (update_address db id (extract_update fs)) id).getD
      a0).normalized_address
    = some (normalized_str (dictGet fs "street_info") (dictGet fs "neighborhood")) := by
  rw [get_update, h0]
  rfl

/-! Helper lemmas about the normalized-address string. -/

theorem data_append (a b : String) : (a ++ b).data = a.data ++ b.data := by
  obtain ⟨la⟩ := a
  obtain ⟨lb⟩ := b
  rfl

theorem append_ne_empty_right (a b : String) (h : b ≠ "") : a ++ b ≠ "" := by
  intro hc
  apply h
  have hd : (a ++ b).data = ([] : List Char) := by rw [hc]
  rw [data_append] at hd
  obtain ⟨lb⟩ := b
  obtain ⟨-, h2⟩ := List.append_eq_nil.mp hd
  simpa using congrArg String.mk h2

theorem pyJoin_suffix_ne (l : List String) :
    pyJoin ", " (l ++ ["Medellin", "Colombia"]) ≠ "" := by
  induction l with
  | nil => decide
  | cons x l2 ih =>
    cases l2 with
    | nil =>
      show x ++ ", " ++ pyJoin ", " ["Medellin", "Colombia"] ≠ ""
      exact append_ne_empty_right _ _ (by decide)
    | cons y l3 =>
      show x ++ ", " ++ pyJoin ", " ((y :: l3) ++ ["Medellin", "Colombia"]) ≠ ""
      exact append_ne_empty_right _ _ ih

theorem filter_norm_parts (si nb : Option String) :
    ∃ l, pyFilterTruthy (norm_parts si nb) = l ++ ["Medellin", "Colombia"] := by
  rcases si with - | s
  · rcases nb with - | t
    · exact ⟨[], rfl⟩
    · by_cases ht : t = ""
      · subst ht
        exact ⟨[], rfl⟩
      · exact ⟨[t], by simp [pyFilterTruthy, norm_parts, ht]⟩
  · rcases nb with - | t
    · by_cases hs : s = ""
      · subst hs
        exact ⟨[], rfl⟩
      · exact ⟨[s], by simp [pyFilterTruthy, norm_parts, hs]⟩
    · by_cases hs : s = "" <;> by_cases ht : t = ""
      · subst hs; subst ht
        exact ⟨[], rfl⟩
      · subst hs
        exact ⟨[t], by simp [pyFilterTruthy, norm_parts, ht]⟩
      · subst ht
        exact ⟨[s], by simp [pyFilterTruthy, norm_parts, hs]⟩
      · exact ⟨[s, t], by simp [pyFilterTruthy, norm_parts, hs, ht]⟩

theorem normalized_str_ne_empty (si nb : Option String) :
    normalized_str si nb ≠ "" := by
  obtain ⟨l, hl⟩ := filter_norm_parts si nb
  rw [normalized_str, hl]
  exact pyJoin_suffix_ne l

theorem normalized_eq_spec (si nb : Option String)
    (hsi : si ≠ some "") (hnb : nb ≠ some "") :
    normalized_str si nb = normalized_spec si nb := by
  rcases si with - | s
  · rcases nb with - | t
    · rfl
    · have ht : ¬(t = "") := fun h => hnb (by rw [h])
      simp [normalized_str, normalized_spec, pyFilterTruthy, norm_parts, ht]
  · have hs : ¬(s = "") := fun h => hsi (by rw [h])
    rcases nb with - | t
    · simp [normalized_str, normalized_spec, pyFilterTruthy, norm_parts, hs]
    · have ht : ¬(t = "") := fun h => hnb (by rw [h])
      simp [normalized_str, normalized_spec, pyFilterTruthy, norm_parts, hs, ht]

theorem bool_false_of_not_true {b : Bool} (h : ¬b = true) : b = false := by
  cases hb : b with
  | false => rfl
  | true => exact absurd hb h

theorem rank_after_extract (a0 a1 : Address) (fs : List (String × JVal))
    (hnv : a0.status ≠ AddressStatus.VERIFIED)
    (h : some (applyUpdate a0 (extract_update fs)) = some a1) :
    a0.status.rank ≤ a1.status.rank := by
  injection h with h2
  have hst : a1.status = AddressStatus.NORMALIZED := by
    rw [← h2]
    rfl
  rw [hst]
  cases hs0 : a0.status with
  | PENDING => simp [AddressStatus.rank]
  | NORMALIZED => simp [AddressStatus.rank]
  | VERIFIED => exact absurd hs0 hnv

theorem rank_of_unchanged (db : Store) (id : Nat) (a0 a1 : Address)
    (h0 : get_address db id = some a0) (h1 : get_address db id = some a1) :
    a0.status.rank ≤ a1.status.rank := by
  rw [h0] at h1
  injection h1 with h2
  rw [h2]

/-- Claim C1 (corrected): for a record whose status at the start of the run is
PENDING or NORMALIZED, no pipeline run ever lowers the status — the claim's
forward-only guarantee holds on those runs.  (As the counterexample shows, the
guarantee fails precisely for a record already at VERIFIED: a re-run whose
extraction succeeds writes status NORMALIZED back onto it.) -/
theorem C1_forward_only (db : Store) (id : Nat) (ai : AiOutcome)
    (loads : String → Except Unit JsonVal) (geo : GeoResponse) (a0 a1 : Address)
    (h0 : get_address db id = some a0)
    (hnv : a0.status ≠ AddressStatus.VERIFIED)
    (h1 : get_address (run_processing_pipeline db id ai loads geo).db id = some a1) :
    a0.status.rank ≤ a1.status.rank := by
  rw [run_pipeline_found db id ai loads geo a0 h0] at h1
  cases hp : parse_address_with_ai a0.original_address ai loads with
  | none =>
    rw [hp, run_found_none] at h1
    exact rank_of_unchanged db id a0 a1 h0 h1
  | some v =>
    by_cases htr : v.truthy = true
    · cases v with
      | arr es =>
        have hes : es ≠ [] := by
          intro hc
          subst hc
          simp [JsonVal.truthy] at htr
        rw [hp, run_found_arr db id a0 es geo hes] at h1
        exact rank_of_unchanged db id a0 a1 h0 h1
      | obj fs =>
        rw [hp, run_found_obj db id a0 fs geo htr] at h1
        unfold geo_phase at h1
        cases hg : geocode_address
            (((get_address (update_address db id (extract_update fs)) id).getD
              a0).normalized_address) geo with
        | error e =>
          rw [hg] at h1
          have h1' : get_address (update_address db id (extract_update fs)) id
              = some a1 := h1
          rw [get_update, h0, Option.map_some'] at h1'
          exact rank_after_extract a0 a1 fs hnv h1'
        | ok og =>
          cases og with
          | none =>
            rw [hg] at h1
            have h1' : get_address (update_address db id (extract_update fs)) id
                = some a1 := h1
            rw [get_update, h0, Option.map_some'] at h1'
            exact rank_after_extract a0 a1 fs hnv h1'
          | some g =>
            rw [hg] at h1
            have h1' : get_address
                (update_address (update_address db id (extract_update fs)) id
                  (geo_update g)) id = some a1 := h1
            rw [get_update, get_update, h0, Option.map_some', Option.map_some'] at h1'
            injection h1' with h2
            have hst : a1.status = AddressStatus.VERIFIED := by
              rw [← h2]
              rfl
            rw [hst]
            exact rank_le_two a0.status
    · have hf : v.truthy = false := bool_false_of_not_true htr
      rw [hp, run_found_falsy db id a0 v geo hf] at h1
      exact rank_of_unchanged db id a0 a1 h0 h1

/-- Claim C1, counterexample to the claim as stated: a record already at
VERIFIED is re-run; extraction succeeds and geocoding returns an empty match
array; the run ends with the record's status set back to NORMALIZED — the
pipeline does move a record from a later status to an earlier one. -/
theorem C1_counterexample :
    cex_verified.status = AddressStatus.VERIFIED ∧
    (run_processing_pipeline [(1, cex_verified)] 1 (AiOutcome.response "resp")
        oracle_obj (GeoResponse.results [])).db.map (fun e => (e.1, e.2.status))
      = [(1, AddressStatus.NORMALIZED)] := by
  decide

/-- Claim C1 witness: the forward-only theorem applied to a concrete PENDING
record whose run verifies it. -/
theorem C1_witness :
    get_address [(1, cex_pending)] 1 = some cex_pending ∧
    cex_pending.status ≠ AddressStatus.VERIFIED ∧
    get_address (run_processing_pipeline [(1, cex_pending)] 1
        (AiOutcome.response "resp") oracle_obj geo_ok).db 1 = some cex_verified ∧
    cex_pending.status.rank ≤ cex_verified.status.rank := by
  refine ⟨by decide, by decide, by decide, ?_⟩
  exact C1_forward_only [(1, cex_pending)] 1 (AiOutcome.response "resp")
    oracle_obj geo_ok cex_pending cex_verified (by decide) (by decide) (by decide)

/-- Claim C2 (confirmed): when the extractor returns a failure, the run leaves
the store untouched (no field of any record is mutated), never reaches the
geocoding call, raises nothing, and a record that was PENDING is still
PENDING afterwards. -/
theorem C2_extraction_failure (db : Store) (id : Nat) (ai : AiOutcome)
    (loads : String → Except Unit JsonVal) (geo : GeoResponse) (a0 : Address)
    (h0 : get_address db id = some a0)
    (hf : parse_address_with_ai a0.original_address ai loads = none) :
    (run_processing_pipeline db id ai loads geo).db = db ∧
    Event.geocodeCall ∉ (run_processing_pipeline db id ai loads geo).trace ∧
    (run_processing_pipeline db id ai loads geo).exn = none ∧
    (a0.status = AddressStatus.PENDING → ∀ a1,
      get_address (run_processing_pipeline db id ai loads geo).db id = some a1 →
        a1.status = AddressStatus.PENDING) := by
  rw [run_pipeline_found db id ai loads geo a0 h0, hf, run_found_none]
  refine ⟨rfl, ?_, rfl, ?_⟩
  · show Event.geocodeCall ∉ [Event.extractCall]
    decide
  intro hs a1 h1
  have h1' : get_address db id = some a1 := h1
  rw [h0] at h1'
  injection h1' with h2
  rw [← h2]
  exact hs

/-- Claim C2 witness: a concrete run whose extraction call raised. -/
theorem C2_witness :
    parse_address_with_ai cex_pending.original_address AiOutcome.raised
        oracle_obj = none ∧
    (run_processing_pipeline [(1, cex_pending)] 1 AiOutcome.raised oracle_obj
        geo_ok).db = [(1, cex_pending)] := by
  refine ⟨by decide, ?_⟩
  exact (C2_extraction_failure [(1, cex_pending)] 1 AiOutcome.raised oracle_obj
    geo_ok cex_pending (by decide) (by decide)).1

/-- Claim C9 (confirmed): a run whose address id does not resolve returns at
once: the store is exactly what it was (no record updated), no external call
is made (empty trace), and nothing is raised. -/
theorem C9_record_not_found (db : Store) (id : Nat) (ai : AiOutcome)
    (loads : String → Except Unit JsonVal) (geo : GeoResponse)
    (h : get_address db id = none) :
    run_processing_pipeline db id ai loads geo
      = { db := db, trace := [], exn := none } := by
  unfold run_processing_pipeline
  rw [h]

/-- Claim C9 witness: a concrete store with no record under the requested id. -/
theorem C9_witness :
    get_address [(1, cex_pending)] 2 = none ∧
    run_processing_pipeline [(1, cex_pending)] 2 (AiOutcome.response "resp")
        oracle_obj geo_ok
      = { db := [(1, cex_pending)], trace := [], exn := none } := by
  refine ⟨by decide, ?_⟩
  exact C9_record_not_found [(1, cex_pending)] 2 (AiOutcome.response "resp")
    oracle_obj geo_ok (by decide)

/-- Claim C3 (confirmed): when extraction succeeded and the geocoding step
fails (`GeocodeFailure`, i.e. the call returns `None`), the run's final store
is exactly the one committed by the extraction-success update — nothing is
reverted — and the record holds the four extracted fields and the normalized
address, has status NORMALIZED, and coordinates that were null stay null. -/
theorem C3_geocode_failure_frame (db : Store) (id : Nat) (ai : AiOutcome)
    (loads : String → Except Unit JsonVal) (geo : GeoResponse) (a0 : Address)
    (fs : List (String × JVal))
    (h0 : get_address db id = some a0)
    (hp : parse_address_with_ai a0.original_address ai loads
      = some (JsonVal.obj fs))
    (htr : (JsonVal.obj fs).truthy = true)
    (hg : geocode_address (some (normalized_str (dictGet fs "street_info")
      (dictGet fs "neighborhood"))) geo = Except.ok none)
    (hlat : a0.latitude = none) (hlon : a0.longitude = none) :
    (run_processing_pipeline db id ai loads geo).db
      = update_address db id (extract_update fs) ∧
    ∃ a1, get_address (run_processing_pipeline db id ai loads geo).db id
        = some a1 ∧
      a1.street_info = dictGet fs "street_info" ∧
      a1.neighborhood = dictGet fs "neighborhood" ∧
      a1.apartment_info = dictGet fs "apartment_info" ∧
      a1.notes = dictGet fs "notes" ∧
      a1.normalized_address = some (normalized_str (dictGet fs "street_info")
        (dictGet fs "neighborhood")) ∧
      a1.status = AddressStatus.NORMALIZED ∧
      a1.latitude = none ∧ a1.longitude = none := by
  rw [run_pipeline_found db id ai loads geo a0 h0, hp,
    run_found_obj db id a0 fs geo htr, refreshed_normalized db id a0 fs h0]
  unfold geo_phase
  rw [hg]
  refine ⟨rfl, applyUpdate a0 (extract_update fs), ?_, rfl, rfl, rfl, rfl, rfl,
    rfl, ?_, ?_⟩
  · show get_address (update_address db id (extract_update fs)) id = _
    rw [get_update, h0, Option.map_some']
  · rw [extract_lat]
    exact hlat
  · rw [extract_lon]
    exact hlon

/-- Claim C3 witness: a concrete fresh record, successful extraction, geocoder
returning the empty match array. -/
theorem C3_witness :
    (run_processing_pipeline [(1, cex_pending)] 1 (AiOutcome.response "resp")
        oracle_obj (GeoResponse.results [])).db
      = update_address [(1, cex_pending)] 1 (extract_update
          [("street_info", JVal.str "Carrera 72a # 113-21"),
           ("neighborhood", JVal.null),
           ("apartment_info", JVal.str "2do piso"),
           ("notes", JVal.null)]) := by
  exact (C3_geocode_failure_frame [(1, cex_pending)] 1 (AiOutcome.response "resp")
    oracle_obj (GeoResponse.results []) cex_pending
    [("street_info", JVal.str "Carrera 72a # 113-21"),
     ("neighborhood", JVal.null),
     ("apartment_info", JVal.str "2do piso"),
     ("notes", JVal.null)]
    (by decide) (by decide) (by decide) (by decide) (by decide) (by decide)).1

/-- Claim C4 (corrected): the pipeline persists
`", ".join(filter(None, [street_info, neighborhood, "Medellin", "Colombia"]))`,
which skips every falsy element — nulls AND empty strings, not nulls alone;
whenever neither extracted part is the empty string this coincides with the
claim's non-null join. -/
theorem C4_normalized_join (db : Store) (id : Nat) (ai : AiOutcome)
    (loads : String → Except Unit JsonVal) (geo : GeoResponse) (a0 : Address)
    (fs : List (String × JVal))
    (h0 : get_address db id = some a0)
    (hp : parse_address_with_ai a0.original_address ai loads
      = some (JsonVal.obj fs))
    (htr : (JsonVal.obj fs).truthy = true) :
    ∃ a1, get_address (run_processing_pipeline db id ai loads geo).db id
        = some a1 ∧
      a1.normalized_address = some (normalized_str (dictGet fs "street_info")
        (dictGet fs "neighborhood")) ∧
      (dictGet fs "street_info" ≠ some "" → dictGet fs "neighborhood" ≠ some "" →
        normalized_str (dictGet fs "street_info") (dictGet fs "neighborhood")
          = normalized_spec (dictGet fs "street_info")
              (dictGet fs "neighborhood")) := by
  rw [run_pipeline_found db id ai loads geo a0 h0, hp,
    run_found_obj db id a0 fs geo htr, refreshed_normalized db id a0 fs h0]
  unfold geo_phase
  cases hg : geocode_address (some (normalized_str (dictGet fs "street_info")
      (dictGet fs "neighborhood"))) geo with
  | error e =>
    refine ⟨applyUpdate a0 (extract_update fs), ?_, rfl,
      fun hsi hnb => normalized_eq_spec _ _ hsi hnb⟩
    show get_address (update_address db id (extract_update fs)) id = _
    rw [get_update, h0, Option.map_some']
  | ok og =>
    cases og with
    | none =>
      refine ⟨applyUpdate a0 (extract_update fs), ?_, rfl,
        fun hsi hnb => normalized_eq_spec _ _ hsi hnb⟩
      show get_address (update_address db id (extract_update fs)) id = _
      rw [get_update, h0, Option.map_some']
    | some g =>
      refine ⟨applyUpdate (applyUpdate a0 (extract_update fs)) (geo_update g),
        ?_, ?_, fun hsi hnb => normalized_eq_spec _ _ hsi hnb⟩
      · show get_address (update_address (update_address db id
          (extract_update fs)) id (geo_update g)) id = _
        rw [get_update, get_update, h0, Option.map_some', Option.map_some']
      · rw [geo_norm, extract_norm]

/-- Claim C4, counterexample to the claim as stated: extraction returns
`street_info` as the empty string (non-null); the claimed non-null join is
`", Medellin, Colombia"`, but the pipeline persists `"Medellin, Colombia"` —
`filter(None, ...)` drops the empty string too. -/
theorem C4_counterexample :
    (run_processing_pipeline [(1, cex_pending)] 1 (AiOutcome.response "resp")
        oracle_empty_street (GeoResponse.results [])).db.map
          (fun e => (e.1, e.2.normalized_address))
      = [(1, some "Medellin, Colombia")] ∧
    normalized_spec (some "") none = ", Medellin, Colombia" ∧
    ("Medellin, Colombia" : String) ≠ ", Medellin, Colombia" := by
  decide

/-- Claim C4 witness: the join theorem applied to a concrete extraction whose
parts are non-empty, where the persisted string equals the claim's join. -/
theorem C4_witness :
    ∃ a1, get_address (run_processing_pipeline [(1, cex_pending)] 1
        (AiOutcome.response "resp") oracle_obj geo_ok).db 1 = some a1 ∧
      a1.normalized_address = some (normalized_str
        (some "Carrera 72a # 113-21") none) ∧
      (some "Carrera 72a # 113-21" ≠ some "" → (none : Option String) ≠ some "" →
        normalized_str (some "Carrera 72a # 113-21") none
          = normalized_spec (some "Carrera 72a # 113-21") none) := by
  exact C4_normalized_join [(1, cex_pending)] 1 (AiOutcome.response "resp")
    oracle_obj geo_ok cex_pending
    [("street_info", JVal.str "Carrera 72a # 113-21"),
     ("neighborhood", JVal.null),
     ("apartment_info", JVal.str "2do piso"),
     ("notes", JVal.null)]
    (by decide) (by decide) (by decide)

/-- Claim C10 (confirmed): a successful extraction — even one whose four
fields are all null — always persists status NORMALIZED together with a
non-null, non-empty normalized address (at minimum `"Medellin, Colombia"`
when both joinable parts are null), and the run goes on to geocode exactly
that non-empty string. -/
theorem C10_nonempty_query (db : Store) (id : Nat) (ai : AiOutcome)
    (loads : String → Except Unit JsonVal) (geo : GeoResponse) (a0 : Address)
    (fs : List (String × JVal))
    (h0 : get_address db id = some a0)
    (hp : parse_address_with_ai a0.original_address ai loads
      = some (JsonVal.obj fs))
    (htr : (JsonVal.obj fs).truthy = true) :
    (∃ a1, get_address (update_address db id (extract_update fs)) id = some a1 ∧
      a1.status = AddressStatus.NORMALIZED ∧
      a1.normalized_address = some (normalized_str (dictGet fs "street_info")
        (dictGet fs "neighborhood"))) ∧
    normalized_str (dictGet fs "street_info") (dictGet fs "neighborhood") ≠ "" ∧
    (dictGet fs "street_info" = none → dictGet fs "neighborhood" = none →
      normalized_str (dictGet fs "street_info") (dictGet fs "neighborhood")
        = "Medellin, Colombia") ∧
    run_processing_pipeline db id ai loads geo
      = geo_phase (update_address db id (extract_update fs)) id
          (some (normalized_str (dictGet fs "street_info")
            (dictGet fs "neighborhood"))) geo := by
  refine ⟨⟨applyUpdate a0 (extract_update fs), ?_, rfl, rfl⟩,
    normalized_str_ne_empty _ _, ?_, ?_⟩
  · rw [get_update, h0, Option.map_some']
  · intro h1 h2
    rw [h1, h2]
    decide
  · rw [run_pipeline_found db id ai loads geo a0 h0, hp,
      run_found_obj db id a0 fs geo htr, refreshed_normalized db id a0 fs h0]

/-- Claim C10 witness: an extraction whose four fields are all null still
yields the non-empty query `"Medellin, Colombia"` and status NORMALIZED. -/
theorem C10_witness :
    normalized_str (dictGet [("street_info", JVal.null)] "street_info")
        (dictGet [("street_info", JVal.null)] "neighborhood") ≠ "" ∧
    normalized_str (dictGet [("street_info", JVal.null)] "street_info")
        (dictGet [("street_info", JVal.null)] "neighborhood")
      = "Medellin, Colombia" := by
  have h := C10_nonempty_query [(1, cex_pending)] 1 (AiOutcome.response "resp")
    (fun _ => Except.ok (JsonVal.obj [("street_info", JVal.null)]))
    (GeoResponse.results []) cex_pending [("street_info", JVal.null)]
    (by decide) (by decide) (by decide)
  exact ⟨h.2.1, h.2.2.1 (by decide) (by decide)⟩

/-- Claim C5 (corrected): on a non-empty query, an empty match array and every
caught request error (timeout, transport, HTTP status, undecodable body) yield
`GeocodeFailure` (`None`) with no partial data; on a non-empty match array the
call either returns a result carrying both coordinates — with
`suggested_address`/`postal_code` simply null when the match lacks them — or
raises an uncaught `float(...)` error when `lat`/`lon` is missing or
non-numeric. -/
theorem C5_geocode_outcomes (q : String) (hq : q ≠ "") (resp : GeoResponse) :
    ((resp = GeoResponse.timeoutErr ∨ resp = GeoResponse.transportErr ∨
      resp = GeoResponse.httpErr ∨ resp = GeoResponse.badJson ∨
      resp = GeoResponse.results []) →
        geocode_address (some q) resp = Except.ok none) ∧
    (∀ r rest, resp = GeoResponse.results (r :: rest) →
      (∃ la lo, r.lat = some (some la) ∧ r.lon = some (some lo) ∧
        geocode_address (some q) resp
          = Except.ok (some { latitude := la, longitude := lo,
                              suggested_address := r.display_name,
                              postal_code := r.postcode })) ∨
      (∃ e, geocode_address (some q) resp = Except.error e)) := by
  constructor
  · intro h
    rcases h with h | h | h | h | h <;> subst h <;> simp [geocode_address, hq]
  · intro r rest h
    subst h
    cases hla : r.lat with
    | none =>
      exact Or.inr ⟨PyFloatErr.typeError, by
        simp [geocode_address, hq, pyFloat, hla]⟩
    | some ola =>
      cases ola with
      | none =>
        exact Or.inr ⟨PyFloatErr.valueError, by
          simp [geocode_address, hq, pyFloat, hla]⟩
      | some la =>
        cases hlo : r.lon with
        | none =>
          exact Or.inr ⟨PyFloatErr.typeError, by
            simp [geocode_address, hq, pyFloat, hla, hlo]⟩
        | some olo =>
          cases olo with
          | none =>
            exact Or.inr ⟨PyFloatErr.valueError, by
              simp [geocode_address, hq, pyFloat, hla, hlo]⟩
          | some lo =>
            exact Or.inl ⟨la, lo, rfl, rfl, by
              simp [geocode_address, hq, pyFloat, hla, hlo]⟩

/-- Claim C5, counterexample to the claim as stated: a match carrying only
`lat`/`lon` produces a result whose `suggested_address` is null while both
coordinates are set (some of the three without the others), and a match with
no `lat` key makes the call raise `TypeError` instead of returning
`GeocodeFailure`. -/
theorem C5_counterexample :
    geocode_address (some "Carrera 72a # 113-21, Medellin, Colombia")
        (GeoResponse.results [{ lat := some (some 6), lon := some (some (-75)),
                                display_name := none, postcode := none }])
      = Except.ok (some { latitude := 6, longitude := -75,
                          suggested_address := none, postal_code := none }) ∧
    geocode_address (some "Carrera 72a # 113-21, Medellin, Colombia")
        (GeoResponse.results [{ lat := none, lon := some (some (-75)),
                                display_name := some "somewhere", postcode := none }])
      = Except.error PyFloatErr.typeError := by
  decide

/-- Claim C5 witness: the outcome theorem applied to the empty match array on
a concrete non-empty query. -/
theorem C5_witness :
    geocode_address (some "Medellin, Colombia") (GeoResponse.results [])
      = Except.ok none := by
  exact (C5_geocode_outcomes "Medellin, Colombia" (by decide)
    (GeoResponse.results [])).1 (Or.inr (Or.inr (Or.inr (Or.inr rfl))))

/-- Claim C6 (corrected): the extractor strips the code-fence markup and
trims, then parses the remainder as JSON; service unavailability, a raised
generation call and a JSON decode error each yield `ExtractionFailure`
(`None`); but the four-field structure is never validated — a successfully
parsed document is returned as is, and a truthy non-object parse makes the
pipeline raise an uncaught `AttributeError` (with no store mutation) instead
of an `ExtractionFailure`. -/
theorem C6_parse_behaviour (address t : String)
    (loads : String → Except Unit JsonVal) :
    parse_address_with_ai address AiOutcome.unavailable loads = none ∧
    parse_address_with_ai address AiOutcome.raised loads = none ∧
    (∀ e, loads (clean_response t) = Except.error e →
      parse_address_with_ai address (AiOutcome.response t) loads = none) ∧
    (∀ v, loads (clean_response t) = Except.ok v →
      parse_address_with_ai address (AiOutcome.response t) loads = some v) ∧
    (∀ (db : Store) (id : Nat) (a0 : Address) (geo : GeoResponse)
        (es : List JVal), get_address db id = some a0 → es ≠ [] →
      parse_address_with_ai a0.original_address (AiOutcome.response t) loads
          = some (JsonVal.arr es) →
        (run_processing_pipeline db id (AiOutcome.response t) loads geo).exn
            = some RunError.attributeError ∧
          (run_processing_pipeline db id (AiOutcome.response t) loads geo).db
            = db) := by
  refine ⟨rfl, rfl, ?_, ?_, ?_⟩
  · intro e he
    show (match loads (clean_response t) with
      | Except.error _ => none
      | Except.ok v => (some v : Option JsonVal)) = none
    rw [he]
  · intro v hv
    show (match loads (clean_response t) with
      | Except.error _ => none
      | Except.ok w => (some w : Option JsonVal)) = some v
    rw [hv]
  · intro db id a0 geo es h0 hes hp
    rw [run_pipeline_found db id (AiOutcome.response t) loads geo a0 h0, hp,
      run_found_arr db id a0 es geo hes]
    exact ⟨rfl, rfl⟩

/-- Claim C6, counterexample to the claim as stated: the service answers with
the fenced document `[1]` — valid JSON, but not an object with the four
fields.  The extractor strips the fences and returns the array as a success
(not `ExtractionFailure`), and the pipeline run then ends in an uncaught
`AttributeError`. -/
theorem C6_counterexample :
    clean_response "```json\n[1]\n```" = "[1]" ∧
    parse_address_with_ai cex_pending.original_address
        (AiOutcome.response "```json\n[1]\n```") oracle_json_list
      = some (JsonVal.arr [JVal.str "1"]) ∧
    (run_processing_pipeline [(1, cex_pending)] 1
        (AiOutcome.response "```json\n[1]\n```") oracle_json_list geo_ok).exn
      = some RunError.attributeError := by
  decide

/-- Claim C6 witness: the parse-behaviour theorem applied to a concrete
response whose cleaned text is not valid JSON for the oracle. -/
theorem C6_witness :
    parse_address_with_ai "addr" (AiOutcome.response "not json")
        oracle_json_list = none := by
  exact (C6_parse_behaviour "addr" "not json" oracle_json_list).2.2.1 ()
    (by decide)

theorem coord_ok_extract (a : Address) (fs : List (String × JVal))
    (h : coord_ok a) : coord_ok (applyUpdate a (extract_update fs)) := by
  obtain ⟨-, h2⟩ := h
  constructor
  · intro hv
    rw [extract_status] at hv
    exact absurd hv (by decide)
  · rw [extract_lat, extract_lon]
    exact h2

theorem coord_ok_geo (a : Address) (g : GeoResult) :
    coord_ok (applyUpdate a (geo_update g)) := by
  constructor
  · intro hv
    rw [geo_lat, geo_lon]
    exact ⟨by simp, by simp⟩
  · rw [geo_lat, geo_lon]
    simp

theorem coord_ok_after_extract_store (db : Store) (id : Nat)
    (fs : List (String × JVal))
    (hinv : ∀ k a, (k, a) ∈ db → coord_ok a) :
    ∀ k a', (k, a') ∈ update_address db id (extract_update fs) →
      coord_ok a' := by
  intro k a' hm
  rcases mem_update db id (extract_update fs) k a' hm with h | ⟨a, ha, he⟩
  · exact hinv k a' h
  · rw [he]
    exact coord_ok_extract a fs (hinv k a ha)

/-- Claim C7 (confirmed): the geocoding-success update carries latitude and
longitude together in the one persisted update, and a pipeline run preserves
the coordinate invariant on every record of the store: a VERIFIED record has
both coordinates, and never exactly one coordinate is set. -/
theorem C7_verified_has_coords (db : Store) (id : Nat) (ai : AiOutcome)
    (loads : String → Except Unit JsonVal) (geo : GeoResponse)
    (hinv : ∀ k a, (k, a) ∈ db → coord_ok a) :
    (∀ g, (geo_update g).latitude = some (some g.latitude) ∧
      (geo_update g).longitude = some (some g.longitude)) ∧
    ∀ k a', (k, a') ∈ (run_processing_pipeline db id ai loads geo).db →
      coord_ok a' := by
  refine ⟨fun g => ⟨rfl, rfl⟩, ?_⟩
  cases h0 : get_address db id with
  | none =>
    unfold run_processing_pipeline
    rw [h0]
    exact fun k a' hm => hinv k a' hm
  | some a0 =>
    rw [run_pipeline_found db id ai loads geo a0 h0]
    cases hp : parse_address_with_ai a0.original_address ai loads with
    | none =>
      rw [run_found_none]
      exact fun k a' hm => hinv k a' hm
    | some v =>
      by_cases htr : v.truthy = true
      · cases v with
        | arr es =>
          have hes : es ≠ [] := by
            intro hc
            subst hc
            simp [JsonVal.truthy] at htr
          rw [run_found_arr db id a0 es geo hes]
          exact fun k a' hm => hinv k a' hm
        | obj fs =>
          rw [run_found_obj db id a0 fs geo htr,
            refreshed_normalized db id a0 fs h0]
          unfold geo_phase
          cases hg : geocode_address (some (normalized_str
              (dictGet fs "street_info") (dictGet fs "neighborhood"))) geo with
          | error e => exact coord_ok_after_extract_store db id fs hinv
          | ok og =>
            cases og with
            | none => exact coord_ok_after_extract_store db id fs hinv
            | some g =>
              intro k a' hm
              rcases mem_update _ id (geo_update g) k a' hm with
                h | ⟨a, ha, he⟩
              · exact coord_ok_after_extract_store db id fs hinv k a' h
              · rw [he]
                exact coord_ok_geo a g
      · have hf : v.truthy = false := bool_false_of_not_true htr
        rw [run_found_falsy db id a0 v geo hf]
        exact fun k a' hm => hinv k a' hm

/-- Claim C7 witness: the invariant theorem applied to a concrete
fully-successful run, giving the invariant on the record it verified. -/
theorem C7_witness :
    coord_ok cex_verified := by
  refine (C7_verified_has_coords [(1, cex_pending)] 1 (AiOutcome.response "resp")
    oracle_obj geo_ok ?_).2 1 cex_verified ?_
  · intro k a hm
    have hkm : (k, a) = (1, cex_pending) := List.mem_singleton.mp hm
    have ha : a = cex_pending := congrArg Prod.snd hkm
    rw [ha]
    unfold coord_ok
    refine ⟨fun hv => absurd hv (by decide), ?_⟩
    exact Iff.rfl
  · decide

/-- Claim C8 (confirmed): a run on a resolvable record performs its external
steps in the fixed order extraction call, extraction commit, geocoder call,
geocoder commit — every trace is a prefix of that sequence — and whenever the
geocoder was called, extraction had succeeded and its update was already
committed, leaving the record durable at status NORMALIZED with its
normalized address before the geocoder starts. -/
theorem C8_two_step_sequencing (db : Store) (id : Nat) (ai : AiOutcome)
    (loads : String → Except Unit JsonVal) (geo : GeoResponse) (a0 : Address)
    (h0 : get_address db id = some a0) :
    ((run_processing_pipeline db id ai loads geo).trace
        = [Event.extractCall] ∨
     (run_processing_pipeline db id ai loads geo).trace
        = [Event.extractCall, Event.extractCommit, Event.geocodeCall] ∨
     (run_processing_pipeline db id ai loads geo).trace
        = [Event.extractCall, Event.extractCommit, Event.geocodeCall,
           Event.geocodeCommit]) ∧
    (Event.geocodeCall ∈ (run_processing_pipeline db id ai loads geo).trace →
      ∃ fs, parse_address_with_ai a0.original_address ai loads
          = some (JsonVal.obj fs) ∧
        (JsonVal.obj fs).truthy = true ∧
        ∃ a1, get_address (update_address db id (extract_update fs)) id
            = some a1 ∧
          a1.status = AddressStatus.NORMALIZED ∧
          a1.normalized_address = some (normalized_str
            (dictGet fs "street_info") (dictGet fs "neighborhood"))) := by
  rw [run_pipeline_found db id ai loads geo a0 h0]
  cases hp : parse_address_with_ai a0.original_address ai loads with
  | none =>
    rw [run_found_none]
    refine ⟨Or.inl rfl, ?_⟩
    intro hm
    have hm' : Event.geocodeCall ∈ [Event.extractCall] := hm
    exact absurd hm' (by decide)
  | some v =>
    by_cases htr : v.truthy = true
    · cases v with
      | arr es =>
        have hes : es ≠ [] := by
          intro hc
          subst hc
          simp [JsonVal.truthy] at htr
        rw [run_found_arr db id a0 es geo hes]
        refine ⟨Or.inl rfl, ?_⟩
        intro hm
        have hm' : Event.geocodeCall ∈ [Event.extractCall] := hm
        exact absurd hm' (by decide)
      | obj fs =>
        rw [run_found_obj db id a0 fs geo htr,
          refreshed_normalized db id a0 fs h0]
        have hpay : ∃ a1,
            get_address (update_address db id (extract_update fs)) id
              = some a1 ∧
            a1.status = AddressStatus.NORMALIZED ∧
            a1.normalized_address = some (normalized_str
              (dictGet fs "street_info") (dictGet fs "neighborhood")) :=
          ⟨applyUpdate a0 (extract_update fs),
            by rw [get_update, h0, Option.map_some'], rfl, rfl⟩
        unfold geo_phase
        cases hg : geocode_address (some (normalized_str
            (dictGet fs "street_info") (dictGet fs "neighborhood"))) geo with
        | error e =>
          exact ⟨Or.inr (Or.inl rfl), fun _ => ⟨fs, rfl, htr, hpay⟩⟩
        | ok og =>
          cases og with
          | none =>
            exact ⟨Or.inr (Or.inl rfl), fun _ => ⟨fs, rfl, htr, hpay⟩⟩
          | some g =>
            exact ⟨Or.inr (Or.inr rfl), fun _ => ⟨fs, rfl, htr, hpay⟩⟩
    · have hf : v.truthy = false := bool_false_of_not_true htr
      rw [run_found_falsy db id a0 v geo hf]
      refine ⟨Or.inl rfl, ?_⟩
      intro hm
      have hm' : Event.geocodeCall ∈ [Event.extractCall] := hm
      exact absurd hm' (by decide)

/-- Claim C8 witness: the sequencing theorem on a concrete fully-successful
run, whose trace is the full four-event sequence. -/
theorem C8_witness :
    (run_processing_pipeline [(1, cex_pending)] 1 (AiOutcome.response "resp")
        oracle_obj geo_ok).trace
      = [Event.extractCall, Event.extractCommit, Event.geocodeCall,
         Event.geocodeCommit] := by
  rcases (C8_two_step_sequencing [(1, cex_pending)] 1 (AiOutcome.response "resp")
    oracle_obj geo_ok cex_pending (by decide)).1 with h | h | h
  · exact absurd h (by decide)
  · exact absurd h (by decide)
  · exact h

end GeoFull
